import Mathlib

/-!
Verification development for the veyon_in_scripts repository.

The repository is a set of Python installation scripts (src/lib/install_teacher.py,
src/lib/install_student.py, src/lib/uninstall.py).  This file gives a shallow
embedding of the data model and operations those scripts perform and proves
properties about them.

Modelling conventions:
* The filesystem is an association list from paths (lists of segments) to file
  contents (lists of bytes).  Directories are implicit: a directory exists when
  some file lives under it, matching how the scripts only ever observe existence.
* External effects (CLI invocations, UAC elevation, installer exit codes,
  permission errors) are supplied by environment records; the embedded functions
  are pure and return, next to their result, the events they performed.
* Environment variables PROGRAMDATA / PROGRAMFILES are modelled at their
  defaults used by the source (C:/ProgramData, C:/Program Files).
-/

namespace Veyon

/-- A filesystem path, as a list of segments. -/
abbrev Path := List String

/-- A filesystem: a finite map from file paths to byte contents,
represented as an association list (earlier entries shadow later ones). -/
abbrev FS := List (Path × List Nat)

/-- d is a prefix of p (so p names d itself or something beneath it). -/
def isUnder : Path → Path → Bool
  | [], _ => true
  | _ :: _, [] => false
  | a :: as, b :: bs => a == b && isUnder as bs

/-- Exact-path file lookup. -/
def lookupFS : FS → Path → Option (List Nat)
  | [], _ => none
  | (q, c) :: rest, p => if q = p then some c else lookupFS rest p

/-- Python Path.exists(): true when p is a file or an ancestor of a file. -/
def pathExists (fs : FS) (p : Path) : Bool :=
  fs.any (fun e => isUnder p e.1)

/-- shutil.rmtree: delete everything at or below d. -/
def rmtree (fs : FS) (d : Path) : FS :=
  fs.filter (fun e => !(isUnder d e.1))

/-- The files at or below d (Path.rglob restricted to files). -/
def filesUnder (fs : FS) (d : Path) : FS :=
  fs.filter (fun e => isUnder d e.1)

/-- Re-root an entry from src to dst. -/
def rebase (src dst : Path) (e : Path × List Nat) : Path × List Nat :=
  (dst ++ e.1.drop src.length, e.2)

/-- shutil.copytree src dst (the destination has been removed first by the
scripts; any stale destination entries are dropped so the copy is exact). -/
def copytree (fs : FS) (src dst : Path) : FS :=
  (filesUnder fs src).map (rebase src dst) ++ rmtree fs dst

/-- First-of-two option choice. -/
def oOr {α : Type} : Option α → Option α → Option α
  | some x, _ => some x
  | none, b => b

/-!
Text utilities: the checksum parser of src/lib/install_teacher.py.

find_checksum_in_text splits the text on newlines and scans each line with the
Python regular expression r'\b([A-Fa-f0-9]\x7b64\x7d)\b': a 64-character hex run
delimited by word boundaries.  If the line also contains the target filename the
(lowercased) hash is returned at once; otherwise the first hash seen anywhere is
remembered as a fallback.
-/

/-- A word character for the regex word boundary: ASCII letters, digits, underscore. -/
def isWordChar (c : Char) : Bool :=
  c.isAlpha || c.isDigit || c == '_'

/-- A hexadecimal digit, as in the character class [A-Fa-f0-9]. -/
def isHexChar (c : Char) : Bool :=
  c.isDigit || ('a' ≤ c && c ≤ 'f') || ('A' ≤ c && c ≤ 'F')

/-- Try to match exactly 64 hex characters starting here, followed by a word
boundary (end of line or a non-word character). -/
def hex64At (s : List Char) : Option (List Char) :=
  let tk := s.take 64
  if tk.length = 64 && tk.all isHexChar &&
      (match s.drop 64 with
       | [] => true
       | c :: _ => !isWordChar c) then
    some tk
  else none

/-- re.search of the hex pattern: scan positions left to right, requiring a
word boundary before the match (prev is the character before the position). -/
def searchHex64 : Option Char → List Char → Option (List Char)
  | _, [] => none
  | prev, c :: rest =>
    let boundaryOk := match prev with
      | none => true
      | some p => !isWordChar p
    match (if boundaryOk then hex64At (c :: rest) else none) with
    | some tk => some tk
    | none => searchHex64 (some c) rest

/-- Python str.split on a newline: splits into lines, keeping empty pieces. -/
def splitLines : List Char → List (List Char)
  | [] => [[]]
  | c :: rest =>
    let r := splitLines rest
    if c = '\n' then [] :: r
    else
      match r with
      | [] => [[c]]
      | l :: ls => (c :: l) :: ls

/-- Substring test needle-in-hay (the Python in operator on str). -/
def prefixOfChars : List Char → List Char → Bool
  | [], _ => true
  | _ :: _, [] => false
  | a :: as, b :: bs => a == b && prefixOfChars as bs

/-- Substring containment: matches the Python expression needle in hay. -/
def containsSub (needle : List Char) : List Char → Bool
  | [] => prefixOfChars needle []
  | c :: rest => prefixOfChars needle (c :: rest) || containsSub needle rest

/-- Lowercase a character list (str.lower on ASCII content). -/
def lowerL (s : List Char) : List Char := s.map Char.toLower

/-- The line scan of find_checksum_in_text: the accumulator is the saved
fallback checksum. -/
def findChecksumGo (filename : List Char) :
    List (List Char) → Option (List Char) → Option (List Char)
  | [], acc => acc
  | line :: rest, acc =>
    match searchHex64 none line with
    | some tk =>
      let h := lowerL tk
      if containsSub filename line then some h
      else findChecksumGo filename rest (if acc.isSome then acc else some h)
    | none => findChecksumGo filename rest acc

/-- Embedding of find_checksum_in_text (src/lib/install_teacher.py lines 34-51). -/
def find_checksum_in_text (text filename : List Char) : Option (List Char) :=
  findChecksumGo filename (splitLines text) none

/-!
Fixed locations used by the scripts, with the environment variables
PROGRAMDATA and PROGRAMFILES at their source defaults.
-/

/-- C:/ProgramData/Veyon, the vendor data directory. -/
def veyonDataP : Path := ["C:", "ProgramData", "Veyon"]

/-- C:/ProgramData/Veyon/keys, the vendor key directory. -/
def keysDirP : Path := veyonDataP ++ ["keys"]

/-- The fixed private supervisor key location. -/
def privKeyP : Path := keysDirP ++ ["private", "supervisor", "key"]

/-- The fixed public supervisor key location. -/
def pubKeyP : Path := keysDirP ++ ["public", "supervisor", "key"]

/-- The probed veyon-cli.exe locations (install_teacher.py lines 122-126). -/
def cliPaths : List Path :=
  [["C:", "Program Files", "Veyon", "veyon-cli.exe"],
   ["C:", "Program Files (x86)", "Veyon", "veyon-cli.exe"],
   ["C:", "Program Files", "Veyon", "veyon-cli.exe"]]

/-- The probed uninstall.exe locations (uninstall.py lines 36-44). -/
def uninstallerPaths : List Path :=
  [["C:", "Program Files", "Veyon", "uninstall.exe"],
   ["C:", "Program Files (x86)", "Veyon", "uninstall.exe"],
   ["C:", "Program Files", "Veyon", "uninstall.exe"]]

/-- Render a path the way str(Path) does, for substring tests on it. -/
def pathChars : Path → List Char
  | [] => []
  | [s] => s.data
  | s :: rest => s.data ++ '/' :: pathChars rest

/-- The characters of the word private. -/
def privChars : List Char := ['p', 'r', 'i', 'v', 'a', 't', 'e']

/-- The characters of the word public. -/
def pubChars : List Char := ['p', 'u', 'b', 'l', 'i', 'c']

/-!
Key provisioner: generate_veyon_keys (src/lib/install_teacher.py lines 79-221).

The vendor CLI is external: each invocation of veyon-cli authkeys create is
described by a CliResp record supplied by the environment - whether the call
raised (timeout or other exception), whether stderr contained already exist,
the exit code, and the filesystem after the call (the CLI may create keys).
fsAfterDelete is the filesystem after the authkeys delete call of the
regenerate branch.
-/

/-- Outcome of one veyon-cli authkeys create invocation. -/
structure CliResp where
  raises : Bool
  alreadyExist : Bool
  retcode : Int
  fsAfter : FS
  fsAfterDelete : FS

/-- Environment of the key provisioner: the CLI response for each attempt index. -/
structure KeygenEnv where
  resp : Nat → CliResp

/-- Result of the key provisioner: success flag, the filesystem as observed at
return time, and how many CLI processes were invoked during the run. -/
structure KeygenResult where
  ok : Bool
  fs : FS
  cliCalls : Nat
deriving DecidableEq

/-- Do the key files under the key directory include a path containing
private (lowercased), as in the expression private in str(f).lower(). -/
def hasKeyWithSub (fs : FS) (sub : List Char) : Bool :=
  (filesUnder fs keysDirP).any (fun e => containsSub sub (lowerL (pathChars e.1)))

/-- The retry loop of generate_veyon_keys (lines 143-213): one CliResp per
attempt, at most three attempts, then the last-resort check (lines 215-221). -/
def keygenLoop : List CliResp → FS → Nat → KeygenResult
  | [], fs, calls =>
    if pathExists fs privKeyP && pathExists fs pubKeyP then ⟨true, fs, calls⟩
    else ⟨false, fs, calls⟩
  | r :: rest, fs, calls =>
    if r.raises then keygenLoop rest fs (calls + 1)
    else if r.alreadyExist then
      if pathExists r.fsAfter privKeyP && pathExists r.fsAfter pubKeyP then
        ⟨true, r.fsAfter, calls + 1⟩
      else if 2 ≤ (filesUnder r.fsAfter keysDirP).length then ⟨true, r.fsAfter, calls + 1⟩
      else keygenLoop rest r.fsAfterDelete (calls + 2)
    else if r.retcode = 0 then
      if pathExists r.fsAfter privKeyP && pathExists r.fsAfter pubKeyP then
        ⟨true, r.fsAfter, calls + 1⟩
      else keygenLoop rest r.fsAfter (calls + 1)
    else keygenLoop rest r.fsAfter (calls + 1)

/-- Embedding of generate_veyon_keys (install_teacher.py lines 79-221). -/
def generateVeyonKeys (env : KeygenEnv) (fs : FS) : KeygenResult :=
  if pathExists fs keysDirP then
    if pathExists fs privKeyP && pathExists fs pubKeyP then ⟨true, fs, 0⟩
    else if 0 < (filesUnder fs keysDirP).length then
      if hasKeyWithSub fs privChars && hasKeyWithSub fs pubChars then ⟨true, fs, 0⟩
      else if cliPaths.any (fun p => pathExists fs p) then
        keygenLoop [env.resp 0, env.resp 1, env.resp 2] fs 0
      else ⟨false, fs, 0⟩
    else if cliPaths.any (fun p => pathExists fs p) then
      keygenLoop [env.resp 0, env.resp 1, env.resp 2] fs 0
    else ⟨false, fs, 0⟩
  else if cliPaths.any (fun p => pathExists fs p) then
    keygenLoop [env.resp 0, env.resp 1, env.resp 2] fs 0
  else ⟨false, fs, 0⟩

/-!
Key staging: copy_veyon_keys (src/lib/install_teacher.py lines 224-307) copies
the vendor key directory into root/keys.  Permission failures and the elevated
PowerShell fallbacks are environment flags; a successful elevated removal or
copy performs the same filesystem operation as the direct one.
-/

/-- External outcomes of the staging copy. -/
structure CopyEnv where
  rmRaisesPerm : Bool
  elevRemoveOk : Bool
  copyRaisesPerm : Bool
  elevCopyOk : Bool

/-- The copy phase of copy_veyon_keys, after the stale staged copy has been
removed: the recursive copy (directly, or elevated on PermissionError),
followed by the final verification of both staged key files. -/
def copyVeyonKeysCopyPhase (env : CopyEnv) (fs1 : FS) (root : Path) : Bool × FS :=
  if env.copyRaisesPerm && !env.elevCopyOk then (false, fs1)
  else if pathExists (copytree fs1 keysDirP (root ++ ["keys"]))
          ((root ++ ["keys"]) ++ ["private", "supervisor", "key"]) &&
        pathExists (copytree fs1 keysDirP (root ++ ["keys"]))
          ((root ++ ["keys"]) ++ ["public", "supervisor", "key"]) then
    (true, copytree fs1 keysDirP (root ++ ["keys"]))
  else (false, copytree fs1 keysDirP (root ++ ["keys"]))

/-- Embedding of copy_veyon_keys (install_teacher.py lines 224-307): source
checks, then removal of a stale staged copy (directly, or elevated on
PermissionError), then the recursive copy (directly, or elevated on
PermissionError), then the final verification of both staged key files. -/
def copyVeyonKeys (env : CopyEnv) (fs : FS) (root : Path) : Bool × FS :=
  if !(pathExists fs keysDirP) then (false, fs)
  else if !(pathExists fs privKeyP) then (false, fs)
  else if !(pathExists fs pubKeyP) then (false, fs)
  else if pathExists fs (root ++ ["keys"]) && env.rmRaisesPerm && !env.elevRemoveOk then
    (false, fs)
  else
    copyVeyonKeysCopyPhase env
      (if pathExists fs (root ++ ["keys"]) then rmtree fs (root ++ ["keys"]) else fs)
      root

/-!
Key distributor: distribute_keys_to_veyon (src/lib/install_student.py lines
73-172) copies root/keys into the vendor key directory.  On PermissionError,
an already-elevated run fails; otherwise the operator is asked for consent and
an elevated robocopy /MIR (a mirroring copy) is launched via ShellExecuteW.
That launch is fire-and-forget: the source treats a ShellExecuteW return value
above 32 as success without waiting for the process or reading an exit code
(install_student.py lines 162-167), so at the moment success is reported the
mirror has not been performed - the embedding therefore returns the filesystem
unchanged on that branch.
-/

/-- External outcomes of the student-side distribution. -/
structure DistEnv where
  copyRaisesPerm : Bool
  isAdmin : Bool
  consentYes : Bool
  robocopyRet : Int

/-- Embedding of distribute_keys_to_veyon (install_student.py lines 73-172). -/
def distributeKeysToVeyon (env : DistEnv) (fs : FS) (root : Path) : Bool × FS :=
  if !(pathExists fs (root ++ ["keys"])) then (false, fs)
  else if !(pathExists fs ((root ++ ["keys"]) ++ ["public", "supervisor", "key"])) then
    (false, fs)
  else if !env.copyRaisesPerm then
    (true, copytree (if pathExists fs keysDirP then rmtree fs keysDirP else fs)
      (root ++ ["keys"]) keysDirP)
  else if env.isAdmin then (false, fs)
  else if env.consentYes then
    if 32 < env.robocopyRet then (true, fs)
    else (false, fs)
  else (false, fs)

/-!
Release model and asset selection (install_teacher.py lines 406-472,
install_student.py lines 184-193).
-/

/-- A release asset: name and browser_download_url. -/
structure Asset where
  name : List Char
  url : List Char
deriving DecidableEq

/-- The latest-release JSON: tag_name, assets, optional body text. -/
structure Release where
  tag : List Char
  assets : List Asset
  body : Option (List Char)

/-- The characters of the platform token win64. -/
def win64Chars : List Char := ['w', 'i', 'n', '6', '4']

/-- The checksum-asset keywords of install_teacher.py line 443. -/
def checksumKeywords : List (List Char) :=
  [['s', 'h', 'a', '2', '5', '6'],
   ['c', 'h', 'e', 'c', 'k', 's', 'u', 'm'],
   ['h', 'a', 's', 'h'],
   ['s', 'u', 'm']]

/-- Teacher-side asset selection (lines 423-427): the first asset whose name
or URL contains win64, both lowercased. -/
def selectWin64 (assets : List Asset) : Option Asset :=
  assets.find? (fun a =>
    containsSub win64Chars (lowerL a.name) || containsSub win64Chars (lowerL a.url))

/-- Student-side asset selection (install_student.py line 188): first asset
whose lowercased name contains win64; none models the StopIteration raise. -/
def selectWin64Student (assets : List Asset) : Option Asset :=
  assets.find? (fun a => containsSub win64Chars (lowerL a.name))

/-- The first asset whose lowercased name contains a checksum keyword
(lines 441-446). -/
def findChecksumAsset (assets : List Asset) : Option Asset :=
  assets.find? (fun a => checksumKeywords.any (fun k => containsSub k (lowerL a.name)))

/-- The observable events of an install run, in the order they happen. -/
inductive Event
  | downloadedChecksumFile
  | downloadedInstaller
  | installerSpawned
  | keygenStarted
  | copyStarted
  | distributeStarted
deriving DecidableEq

/-- The failure modes of install_teacher, one per distinct raise site. -/
inductive TErr
  | noAssets
  | assetNotFound
  | integrityError
  | installerFailed
  | elevationDenied
  | shellExecFailed
  | keygenFailed
  | copyFailed
deriving DecidableEq

/-!
Teacher installer: install_teacher (src/lib/install_teacher.py lines 393-646).
Network, hashing and OS facts come from the environment: the release JSON, the
text served for the checksum asset URL (none when that download raised), the
downloaded installer bytes, the SHA256 function as an abstract digest, the
privilege state and the installer exit code.
-/

/-- Environment of a teacher install run. -/
structure TeacherEnv where
  release : Release
  checksumFetch : List Char → Option (List Char)
  installerBytes : List Nat
  hash : List Nat → List Char
  isWin32 : Bool
  isAdmin : Bool
  hasPyWin32 : Bool
  shellExRaises : Bool
  hProcessOk : Bool
  shellRet : Int
  installerExit : Int
  fs : FS
  kgEnv : KeygenEnv
  copyEnv : CopyEnv
  root : Path

/-- Result of a teacher install run: the events performed, and the exception it
re-raised (none on success). -/
structure TeacherResult where
  events : List Event
  err : Option TErr
deriving DecidableEq

/-- The reference checksum as resolved by the run (lines 437-472): parse the
downloaded checksum file for the selected filename, else fall back to the
release body. -/
def teacherChecksum (env : TeacherEnv) (a : Asset) : Option (List Char) :=
  let c0 : Option (List Char) :=
    match findChecksumAsset env.release.assets with
    | some ca =>
      match env.checksumFetch ca.url with
      | some txt => find_checksum_in_text txt a.name
      | none => none
    | none => none
  match c0 with
  | some c => some c
  | none =>
    match env.release.body with
    | some b => find_checksum_in_text b a.name
    | none => none

/-- The installer-run step of install_teacher (lines 509-601): the already-admin
branch raises on a non-zero exit code; the elevation branch records the exit
code and only warns on non-zero; elevation failure raises. -/
def runInstallerTeacher (env : TeacherEnv) : Option TErr :=
  if env.isAdmin then
    if env.installerExit ≠ 0 then some .installerFailed else none
  else if env.hasPyWin32 then
    if env.shellExRaises then some .elevationDenied
    else if env.hProcessOk then none
    else some .elevationDenied
  else if env.shellRet ≤ 32 then some .shellExecFailed
  else none

/-- Embedding of install_teacher (install_teacher.py lines 393-646). -/
def installTeacher (env : TeacherEnv) : TeacherResult :=
  if env.release.assets.isEmpty then ⟨[], some .noAssets⟩
  else
    match selectWin64 env.release.assets with
    | none => ⟨[], some .assetNotFound⟩
    | some a =>
      let ev0 : List Event :=
        match findChecksumAsset env.release.assets with
        | some _ => [.downloadedChecksumFile]
        | none => []
      let cks := teacherChecksum env a
      let ev1 := ev0 ++ [Event.downloadedInstaller]
      let localHash := lowerL (env.hash env.installerBytes)
      let proceed : TeacherResult :=
        let evInst := if env.isWin32 then ev1 ++ [Event.installerSpawned] else ev1
        let instErr := if env.isWin32 then runInstallerTeacher env else none
        match instErr with
        | some e => ⟨evInst, some e⟩
        | none =>
          let ev3 := evInst ++ [Event.keygenStarted]
          let kg := generateVeyonKeys env.kgEnv env.fs
          if kg.ok then
            let ev4 := ev3 ++ [Event.copyStarted]
            let cp := copyVeyonKeys env.copyEnv kg.fs env.root
            if cp.1 then ⟨ev4, none⟩ else ⟨ev4, some .copyFailed⟩
          else ⟨ev3, some .keygenFailed⟩
      match cks with
      | some c => if localHash = c then proceed else ⟨ev1, some .integrityError⟩
      | none => proceed

/-!
Student installer: install_student (src/lib/install_student.py lines 175-283).
-/

/-- The failure modes of install_student. -/
inductive SErr
  | assetNotFound
  | elevationFailed
  | launchFailed
deriving DecidableEq

/-- Environment of a student install run. -/
structure StudentEnv where
  release : Release
  isAdmin : Bool
  hasPyWin32 : Bool
  shellExRaises : Bool
  hProcessOk : Bool
  shellRet : Int
  installerExit : Int
  fs : FS
  distEnv : DistEnv
  root : Path

/-- Result of a student install run. -/
structure StudentResult where
  events : List Event
  err : Option SErr
  keysDistributed : Bool
  fs : FS
deriving DecidableEq

/-- The installer-run step of install_student (lines 200-262): an already-admin
run waits and at most warns on a non-zero exit code (with or without pywin32);
an elevation-requested run raises only when no process handle or launch is
obtained. -/
def runInstallerStudent (env : StudentEnv) : Option SErr :=
  if env.isAdmin then none
  else if env.hasPyWin32 then
    if env.shellExRaises then some .elevationFailed
    else if env.hProcessOk then none
    else some .elevationFailed
  else if env.shellRet ≤ 32 then some .launchFailed
  else none

/-- Embedding of install_student (install_student.py lines 175-283). -/
def installStudent (env : StudentEnv) : StudentResult :=
  match selectWin64Student env.release.assets with
  | none => ⟨[], some .assetNotFound, false, env.fs⟩
  | some _ =>
    let ev2 := [Event.downloadedInstaller, Event.installerSpawned]
    match runInstallerStudent env with
    | some e => ⟨ev2, some e, false, env.fs⟩
    | none =>
      let d := distributeKeysToVeyon env.distEnv env.fs env.root
      ⟨ev2 ++ [Event.distributeStarted], none, d.1, d.2⟩

/-!
Uninstaller: src/lib/uninstall.py.  The waits the orchestrator performs on the
vendor uninstaller are recorded as their timeout values: some n for a bounded
n-second wait, none for the INFINITE wait of WaitForSingleObject.
-/

/-- External outcomes of run_uninstaller_elevated. -/
structure UninstEnv where
  isAdmin : Bool
  hasPyWin32 : Bool
  runRaises : Bool
  timedOut : Bool
  shellExRaises : Bool
  hProcessOk : Bool
  exitCode : Int

/-- Embedding of run_uninstaller_elevated (uninstall.py lines 55-139): the
already-admin branch waits via communicate with a 120-second timeout; the
elevation branch waits via WaitForSingleObject with INFINITE. -/
def runUninstallerElevated (env : UninstEnv) : List (Option Nat) × Bool :=
  if env.isAdmin then
    if env.runRaises then ([], false)
    else if env.timedOut then ([some 120], false)
    else ([some 120], env.exitCode = 0)
  else if env.hasPyWin32 then
    if env.shellExRaises then ([], false)
    else if env.hProcessOk then ([none], env.exitCode = 0)
    else ([], false)
  else ([], false)

/-- Embedding of find_veyon_uninstaller (uninstall.py lines 32-52). -/
def findVeyonUninstaller (fs : FS) : Option Path :=
  uninstallerPaths.find? (fun p => pathExists fs p)

/-- Observable events of an uninstall run. -/
inductive UEvent
  | scStopSpawn
  | uninstallerSpawn
  | purgePrompt
  | purgeSpawn
deriving DecidableEq

/-- Which uninstall events spawn an external process. -/
def isSpawnEvent : UEvent → Bool
  | .scStopSpawn => true
  | .uninstallerSpawn => true
  | .purgePrompt => false
  | .purgeSpawn => true

/-- External outcomes of the data-directory purge. -/
structure PurgeEnv where
  isAdmin : Bool
  rmRaises : Bool
  hasPyWin32 : Bool
  hProcessOk : Bool
  psOk : Bool

/-- Embedding of remove_with_powershell_elevated (uninstall.py lines 222-274). -/
def removeWithPowershellElevated (env : PurgeEnv) (fs : FS) :
    Bool × FS × List UEvent :=
  if env.hasPyWin32 then
    if env.hProcessOk then
      if env.psOk then (true, rmtree fs veyonDataP, [UEvent.purgeSpawn])
      else (false, fs, [UEvent.purgeSpawn])
    else (false, fs, [UEvent.purgeSpawn])
  else (false, fs, [])

/-- Embedding of remove_programdata_elevated (uninstall.py lines 155-219). -/
def removeProgramdataElevated (env : PurgeEnv) (fs : FS) :
    Bool × FS × List UEvent :=
  if pathExists fs veyonDataP then
    if env.isAdmin then
      if env.rmRaises then removeWithPowershellElevated env fs
      else (true, rmtree fs veyonDataP, [])
    else removeWithPowershellElevated env fs
  else (true, fs, [])

/-- Environment of a full uninstall run. -/
structure UninstallEnv where
  fs : FS
  runEnv : UninstEnv
  fsAfterUninstall : FS
  purgeYes : Bool
  purgeEnv : PurgeEnv

/-- Step 3 of uninstall_veyon (lines 331-365): if the data directory exists,
prompt the operator and optionally purge it. -/
def uninstallStep3 (env : UninstallEnv) (ev : List UEvent) (fs : FS) :
    List UEvent × Bool :=
  if pathExists fs veyonDataP then
    let ev2 := ev ++ [UEvent.purgePrompt]
    if env.purgeYes then
      let r := removeProgramdataElevated env.purgeEnv fs
      (ev2 ++ r.2.2, true)
    else (ev2, true)
  else (ev, true)

/-- Embedding of uninstall_veyon (uninstall.py lines 277-375).  Step 1 always
spawns the sc stop VeyonService process (lines 285-300); when no uninstaller is
found and no data directory exists the run returns success early (line 320). -/
def uninstallVeyon (env : UninstallEnv) : List UEvent × Bool :=
  let ev0 := [UEvent.scStopSpawn]
  match findVeyonUninstaller env.fs with
  | none =>
    if pathExists env.fs veyonDataP then uninstallStep3 env ev0 env.fs
    else (ev0, true)
  | some _ =>
    let _ := runUninstallerElevated env.runEnv
    uninstallStep3 env (ev0 ++ [UEvent.uninstallerSpawn]) env.fsAfterUninstall

/-!
Specification-side definitions, used to compare code behaviour with the words
of the specification.
-/

/-- Modelled from the spec (section 4.1): the checksum parser, stated the way
the spec words it - scan line by line with the fixed-width hex pattern, prefer
a line that also contains the target filename, else fall back to the first hex
match found anywhere. -/
def checksumSpecC6 (text filename : List Char) : Option (List Char) :=
  match (splitLines text).filter
      (fun l => (searchHex64 none l).isSome && containsSub filename l) with
  | l :: _ => (searchHex64 none l).map lowerL
  | [] =>
    match (splitLines text).filter (fun l => (searchHex64 none l).isSome) with
    | l :: _ => (searchHex64 none l).map lowerL
    | [] => none

/-- The on-disk evidence that one of the key provisioner's filesystem checks
observed before a success return: the two fixed-location key files, or files
whose paths contain private and public, or (when the CLI reported the keys as
already existing) at least two files under the key directory. -/
def keyEvidence (fs : FS) : Prop :=
  (pathExists fs privKeyP = true ∧ pathExists fs pubKeyP = true) ∨
  (hasKeyWithSub fs privChars = true ∧ hasKeyWithSub fs pubChars = true) ∨
  2 ≤ (filesUnder fs keysDirP).length

/-- The directory tree below d, re-rooted at the empty path, used to state
that two machines hold the same staged key directory. -/
def subtreeAt (fs : FS) (d : Path) : FS :=
  (filesUnder fs d).map (rebase d [])

/-!
Concrete environments used by the claim witnesses and counterexamples.
-/

/-- A CLI response that does nothing: no raise, no already-exists, exit 1. -/
def cliRespNull : CliResp := ⟨false, false, 1, [], []⟩

/-- A keygen environment whose CLI calls do nothing. -/
def kgEnvNull : KeygenEnv := ⟨fun _ => cliRespNull⟩

/-- A copy environment without permission failures. -/
def copyEnvNull : CopyEnv := ⟨false, false, false, false⟩

/-- A win64 installer asset. -/
def assetW : Asset := ⟨"veyon-1.0-win64.exe".data, "u/veyon-1.0-win64.exe".data⟩

/-- A checksum-file asset. -/
def assetSums : Asset := ⟨"sha256sums.txt".data, "u/sha256sums.txt".data⟩

/-- A filesystem holding exactly the two supervisor key files. -/
def fsKeys : FS := [(privKeyP, [1]), (pubKeyP, [2])]

/-- Sixty-four a characters: a well-formed lowercase SHA256 digest. -/
def hashA : List Char := List.replicate 64 'a'

/-- Sixty-four b characters: a different digest. -/
def hashB : List Char := List.replicate 64 'b'

/-- A checksum file whose single line names the selected asset. -/
def sumsText : List Char := hashA ++ ' ' :: ' ' :: assetW.name

/-- Teacher environment for the C1 witness: a published checksum that does not
match the hash of the downloaded bytes. -/
def envC1 : TeacherEnv :=
  { release := ⟨"v1".data, [assetW, assetSums], none⟩
    checksumFetch := fun _ => some sumsText
    installerBytes := [7]
    hash := fun _ => hashB
    isWin32 := true, isAdmin := true, hasPyWin32 := true
    shellExRaises := false, hProcessOk := true, shellRet := 33
    installerExit := 0
    fs := fsKeys, kgEnv := kgEnvNull, copyEnv := copyEnvNull
    root := ["C:", "work"] }

/-- Filesystem for the C2 counterexample: two arbitrarily named files under
the key directory, plus the CLI binary; no supervisor key files. -/
def fsC2 : FS :=
  [(keysDirP ++ ["a"], [0]), (keysDirP ++ ["b"], [0]),
   (["C:", "Program Files", "Veyon", "veyon-cli.exe"], [0])]

/-- Keygen environment for the C2 counterexample: the CLI reports that the
keys already exist and changes nothing on disk. -/
def envC2 : KeygenEnv := ⟨fun _ => ⟨false, true, 1, fsC2, fsC2⟩⟩

/-- Teacher environment for the C3 counterexample: already elevated, and the
installer exits with code 1. -/
def envC3 : TeacherEnv :=
  { release := ⟨"v1".data, [assetW], none⟩
    checksumFetch := fun _ => none
    installerBytes := []
    hash := fun _ => hashA
    isWin32 := true, isAdmin := true, hasPyWin32 := true
    shellExRaises := false, hProcessOk := true, shellRet := 33
    installerExit := 1
    fs := [], kgEnv := kgEnvNull, copyEnv := copyEnvNull
    root := ["C:", "work"] }

/-- Student environment for the C3 witness: already elevated, installer exits
with code 5, and the machine has no staged keys. -/
def envS3 : StudentEnv :=
  { release := ⟨"v1".data, [assetW], none⟩
    isAdmin := true, hasPyWin32 := true
    shellExRaises := false, hProcessOk := true, shellRet := 33
    installerExit := 5
    fs := [], distEnv := ⟨false, true, false, 0⟩
    root := ["C:", "work"] }

/-- Uninstaller-step environment for the C4 counterexample: not elevated,
pywin32 available, a process handle is obtained. -/
def envC4 : UninstEnv :=
  ⟨false, true, false, false, false, true, 0⟩

/-- Uninstaller-step environment for the C4 witness: already elevated. -/
def envC4w : UninstEnv :=
  ⟨true, true, false, false, false, true, 3⟩

/-- Full-uninstall environment for C5: empty filesystem, so neither the
uninstaller nor the data directory exists. -/
def envC5 : UninstallEnv :=
  { fs := []
    runEnv := envC4w
    fsAfterUninstall := []
    purgeYes := false
    purgeEnv := ⟨true, false, true, true, true⟩ }

/-- Teacher environment for the C9 counterexample: an empty asset list. -/
def envC9T : TeacherEnv :=
  { release := ⟨"v1".data, [], none⟩
    checksumFetch := fun _ => none
    installerBytes := []
    hash := fun _ => hashA
    isWin32 := true, isAdmin := true, hasPyWin32 := true
    shellExRaises := false, hProcessOk := true, shellRet := 33
    installerExit := 0
    fs := [], kgEnv := kgEnvNull, copyEnv := copyEnvNull
    root := ["C:", "work"] }

/-- Teacher environment for the C9 witness: one asset, not matching win64. -/
def envC9b : TeacherEnv :=
  { release := ⟨"v1".data, [⟨"veyon-1.0-linux.tar".data, "u/t".data⟩], none⟩
    checksumFetch := fun _ => none
    installerBytes := []
    hash := fun _ => hashA
    isWin32 := true, isAdmin := true, hasPyWin32 := true
    shellExRaises := false, hProcessOk := true, shellRet := 33
    installerExit := 0
    fs := [], kgEnv := kgEnvNull, copyEnv := copyEnvNull
    root := ["C:", "work"] }

/-- Student environment for the C9 witness: same non-matching asset list. -/
def envC9S : StudentEnv :=
  { release := ⟨"v1".data, [⟨"veyon-1.0-linux.tar".data, "u/t".data⟩], none⟩
    isAdmin := true, hasPyWin32 := true
    shellExRaises := false, hProcessOk := true, shellRet := 33
    installerExit := 0
    fs := [], distEnv := ⟨false, true, false, 0⟩
    root := ["C:", "work"] }

/-- Teacher environment for the C10 witness: no checksum asset, no release
body, keys already on disk, a benign elevated install. -/
def envC10 : TeacherEnv :=
  { release := ⟨"v1".data, [assetW], none⟩
    checksumFetch := fun _ => none
    installerBytes := [7]
    hash := fun _ => hashA
    isWin32 := true, isAdmin := true, hasPyWin32 := true
    shellExRaises := false, hProcessOk := true, shellRet := 33
    installerExit := 0
    fs := fsKeys, kgEnv := kgEnvNull, copyEnv := copyEnvNull
    root := ["C:", "work"] }

/-- Teacher-side staging inputs for the C7 witness. -/
def rootTW : Path := ["C:", "work"]

/-- Student-side root for the C7 witness. -/
def rootSW : Path := ["D:", "student"]

/-- Student-side filesystem for the C7 witness: the staged tree produced on
the teacher machine, transferred below the student root. -/
def fsSW : FS :=
  [(rootSW ++ ["keys", "private", "supervisor", "key"], [1]),
   (rootSW ++ ["keys", "public", "supervisor", "key"], [2])]

/-- Distribution environment for the C7 witness: no permission failure. -/
def distEnvW : DistEnv := ⟨false, true, false, 0⟩

/-- Distribution environment for the C7 counterexample: PermissionError on the
direct copy, not elevated, operator consents, and ShellExecuteW returns 33, so
the fire-and-forget robocopy launch is reported as success. -/
def distEnvRobo : DistEnv := ⟨true, false, true, 33⟩

/-!
Theorems.  First general lemmas about the filesystem and parser models, then
one theorem (with witness or counterexample) per claim of the specification.
-/

/- Basic lemmas about the filesystem model. -/

theorem isUnder_append (d r : Path) : isUnder d (d ++ r) = true := by
  induction d with
  | nil => rfl
  | cons a as ih => simp [isUnder, ih]

theorem isUnder_of_eq {d p : Path} (h : d = p) : isUnder d p = true := by
  subst h; simpa using isUnder_append d []

theorem eq_append_drop_of_isUnder :
    ∀ {d p : Path}, isUnder d p = true → p = d ++ p.drop d.length := by
  intro d
  induction d with
  | nil => intro p _; simp
  | cons a as ih =>
    intro p h
    cases p with
    | nil => simp [isUnder] at h
    | cons b bs =>
      simp only [isUnder, Bool.and_eq_true, beq_iff_eq] at h
      obtain ⟨rfl, h2⟩ := h
      simpa using ih h2

theorem isUnder_trans :
    ∀ {d p q : Path}, isUnder d p = true → isUnder p q = true → isUnder d q = true := by
  intro d
  induction d with
  | nil => intros; rfl
  | cons a as ih =>
    intro p q h1 h2
    cases p with
    | nil => simp [isUnder] at h1
    | cons b bs =>
      cases q with
      | nil => simp [isUnder] at h2
      | cons c cs =>
        simp only [isUnder, Bool.and_eq_true, beq_iff_eq] at h1 h2 ⊢
        obtain ⟨rfl, h1⟩ := h1
        obtain ⟨rfl, h2⟩ := h2
        exact ⟨rfl, ih h1 h2⟩

theorem isUnder_extend_false :
    ∀ {d s : Path}, isUnder d s = false → isUnder s d = false →
      ∀ r, isUnder d (s ++ r) = false := by
  intro d
  induction d with
  | nil => intro s h1 _ _; simp [isUnder] at h1
  | cons a as ih =>
    intro s h1 h2 r
    cases s with
    | nil => simp [isUnder] at h2
    | cons b bs =>
      simp only [isUnder, List.cons_append, Bool.and_eq_false_iff] at h1 h2 ⊢
      rcases h1 with h1 | h1
      · left; exact h1
      · rcases h2 with h2 | h2
        · left; rw [beq_eq_false_iff_ne] at h2 ⊢
          exact fun hh => h2 hh.symm
        · right; exact ih h1 h2 r

theorem lookupFS_append (xs ys : FS) (p : Path) :
    lookupFS (xs ++ ys) p = oOr (lookupFS xs p) (lookupFS ys p) := by
  induction xs with
  | nil => rfl
  | cons e t ih =>
    cases e with
    | mk q c =>
      by_cases h : q = p
      · simp only [List.cons_append, lookupFS, if_pos h, oOr]
      · simp only [List.cons_append, lookupFS, if_neg h, List.append_eq]
        exact ih

theorem lookupFS_rmtree_of_under {d p : Path} (h : isUnder d p = true) (fs : FS) :
    lookupFS (rmtree fs d) p = none := by
  induction fs with
  | nil => rfl
  | cons e t ih =>
    cases e with
    | mk q c =>
      by_cases hq : isUnder d q = true
      · simp only [rmtree, List.filter_cons, hq, Bool.not_true, ite_false,
          Bool.false_eq_true]
        exact ih
      · have hq' : isUnder d q = false := by
          cases hcase : isUnder d q
          · rfl
          · exact absurd hcase hq
        have hne : q ≠ p := by
          intro hqp; subst hqp; rw [h] at hq'; cases hq'
        simp only [rmtree, List.filter_cons, hq', Bool.not_false, ite_true, lookupFS,
          if_neg hne]
        exact ih

theorem lookupFS_rmtree_of_not_under {d p : Path} (h : isUnder d p = false) (fs : FS) :
    lookupFS (rmtree fs d) p = lookupFS fs p := by
  induction fs with
  | nil => rfl
  | cons e t ih =>
    cases e with
    | mk q c =>
      by_cases hq : isUnder d q = true
      · have hne : q ≠ p := by
          intro hqp; subst hqp; rw [h] at hq; cases hq
        simp only [rmtree, List.filter_cons, hq, Bool.not_true, ite_false,
          Bool.false_eq_true, lookupFS, if_neg hne]
        exact ih
      · have hq' : isUnder d q = false := by
          cases hcase : isUnder d q
          · rfl
          · exact absurd hcase hq
        by_cases hqp : q = p
        · simp only [rmtree, List.filter_cons, hq', Bool.not_false, ite_true, lookupFS,
            if_pos hqp]
        · simp only [rmtree, List.filter_cons, hq', Bool.not_false, ite_true, lookupFS,
            if_neg hqp]
          exact ih

theorem lookupFS_rebased (fs : FS) (src dst rest : Path) :
    lookupFS ((filesUnder fs src).map (rebase src dst)) (dst ++ rest)
      = lookupFS fs (src ++ rest) := by
  induction fs with
  | nil => rfl
  | cons e t ih =>
    cases e with
    | mk q c =>
      by_cases hq : isUnder src q = true
      · have hdecomp : q = src ++ q.drop src.length := eq_append_drop_of_isUnder hq
        by_cases heq : q = src ++ rest
        · have hdr : q.drop src.length = rest :=
            List.append_cancel_left (hdecomp.symm.trans heq)
          simp only [filesUnder, List.filter_cons, hq, ite_true, List.map_cons, rebase,
            hdr, lookupFS, if_pos rfl, if_pos heq]
        · have hne : dst ++ q.drop src.length ≠ dst ++ rest := by
            intro hcontra
            have hdr : q.drop src.length = rest := List.append_cancel_left hcontra
            exact heq (hdecomp.trans (by rw [hdr]))
          simp only [filesUnder, List.filter_cons, hq, ite_true, List.map_cons, rebase,
            lookupFS, if_neg hne, if_neg heq]
          exact ih
      · have hq' : isUnder src q = false := by
          cases hcase : isUnder src q
          · rfl
          · exact absurd hcase hq
        have hne : q ≠ src ++ rest := by
          intro hqp; subst hqp
          rw [isUnder_append] at hq'; cases hq'
        simp only [filesUnder, List.filter_cons, hq', Bool.false_eq_true, ite_false,
          lookupFS, if_neg hne]
        exact ih

theorem lookupFS_copytree (fs : FS) (src dst rest : Path) :
    lookupFS (copytree fs src dst) (dst ++ rest) = lookupFS fs (src ++ rest) := by
  unfold copytree
  rw [lookupFS_append, lookupFS_rmtree_of_under (isUnder_append dst rest),
      lookupFS_rebased]
  cases lookupFS fs (src ++ rest) <;> rfl

theorem pathExists_ancestor {fs : FS} {d p : Path} (hdp : isUnder d p = true)
    (h : pathExists fs p = true) : pathExists fs d = true := by
  simp only [pathExists, List.any_eq_true] at h ⊢
  obtain ⟨e, he, hu⟩ := h
  exact ⟨e, he, isUnder_trans hdp hu⟩

theorem lookupFS_subtreeAt (fs : FS) (d rest : Path) :
    lookupFS (subtreeAt fs d) rest = lookupFS fs (d ++ rest) := by
  simpa using lookupFS_rebased fs d [] rest

theorem pathExists_of_lookup {fs : FS} {p : Path} {c : List Nat}
    (h : lookupFS fs p = some c) : pathExists fs p = true := by
  induction fs with
  | nil => cases h
  | cons e t ih =>
    cases e with
    | mk q cc =>
      by_cases hq : q = p
      · subst hq
        simp only [pathExists, List.any_cons, Bool.or_eq_true]
        left
        simpa using isUnder_append q []
      · simp only [lookupFS, if_neg hq] at h
        simp only [pathExists, List.any_cons, Bool.or_eq_true]
        right
        exact ih h

theorem oOr_some (x : Option (List Char)) (hx : x.isSome = true) :
    ∀ y, oOr x y = x := by
  cases x with
  | none => cases hx
  | some v => intro y; rfl

theorem findChecksumGo_eq (fn : List Char) (lines : List (List Char))
    (acc : Option (List Char)) :
    findChecksumGo fn lines acc =
      (match lines.filter
          (fun l => (searchHex64 none l).isSome && containsSub fn l) with
       | l :: _ => (searchHex64 none l).map lowerL
       | [] =>
         oOr acc
           (match lines.filter (fun l => (searchHex64 none l).isSome) with
            | l :: _ => (searchHex64 none l).map lowerL
            | [] => none)) := by
  induction lines generalizing acc with
  | nil => cases acc <;> rfl
  | cons line rest ih =>
    cases hs : searchHex64 none line with
    | none =>
      simp only [findChecksumGo, hs, List.filter_cons, Option.isSome_none,
        Bool.false_and, Bool.false_eq_true, ite_false]
      exact ih acc
    | some tk =>
      by_cases hc : containsSub fn line = true
      · simp only [findChecksumGo, hs, if_pos hc, List.filter_cons, hc,
          Option.isSome_some, Bool.true_and, ite_true]
        rfl
      · have hc' : containsSub fn line = false := by
          cases hcase : containsSub fn line
          · rfl
          · exact absurd hcase hc
        simp only [findChecksumGo, hs, hc', Bool.false_eq_true, ite_false,
          List.filter_cons, Option.isSome_some, Bool.true_and, ite_true]
        rw [ih]
        cases hboth : List.filter
            (fun l => (searchHex64 none l).isSome && containsSub fn l) rest with
        | cons l ls => rfl
        | nil =>
          cases acc with
          | some v => rfl
          | none => rfl

/-- C6: the checksum parser computes exactly the specified selection - the
lowercased 64-hex token of a line that also contains the target filename when
one exists, else the first 64-hex token found anywhere in the text, else
nothing; in particular, on a checksum file whose 64-hex line names the
selected asset, the parsed checksum is that hash in lowercase. -/
theorem C6_parser_matches_spec (text fn : List Char) :
    find_checksum_in_text text fn = checksumSpecC6 text fn := by
  unfold find_checksum_in_text checksumSpecC6
  rw [findChecksumGo_eq]
  cases List.filter
      (fun l => (searchHex64 none l).isSome && containsSub fn l)
      (splitLines text) with
  | cons l ls => rfl
  | nil =>
    cases List.filter (fun l => (searchHex64 none l).isSome) (splitLines text) with
    | cons l ls => rfl
    | nil => rfl

theorem keygenLoop_evidence (resps : List CliResp) :
    ∀ (fs : FS) (calls : Nat),
      (keygenLoop resps fs calls).ok = true →
        keyEvidence (keygenLoop resps fs calls).fs := by
  induction resps with
  | nil =>
    intro fs calls h
    unfold keygenLoop at h ⊢
    by_cases hk : (pathExists fs privKeyP && pathExists fs pubKeyP) = true
    · rw [if_pos hk] at h ⊢
      rw [Bool.and_eq_true] at hk
      exact Or.inl ⟨hk.1, hk.2⟩
    · rw [if_neg hk] at h
      cases h
  | cons r rest ih =>
    intro fs calls h
    unfold keygenLoop at h ⊢
    by_cases hr : r.raises = true
    · rw [if_pos hr] at h ⊢
      exact ih _ _ h
    · rw [if_neg hr] at h ⊢
      by_cases ha : r.alreadyExist = true
      · rw [if_pos ha] at h ⊢
        by_cases h1 : (pathExists r.fsAfter privKeyP && pathExists r.fsAfter pubKeyP) = true
        · rw [if_pos h1] at h ⊢
          rw [Bool.and_eq_true] at h1
          exact Or.inl ⟨h1.1, h1.2⟩
        · rw [if_neg h1] at h ⊢
          by_cases h2 : 2 ≤ (filesUnder r.fsAfter keysDirP).length
          · rw [if_pos h2] at h ⊢
            exact Or.inr (Or.inr h2)
          · rw [if_neg h2] at h ⊢
            exact ih _ _ h
      · rw [if_neg ha] at h ⊢
        by_cases hrc : r.retcode = 0
        · rw [if_pos hrc] at h ⊢
          by_cases h1 : (pathExists r.fsAfter privKeyP && pathExists r.fsAfter pubKeyP) = true
          · rw [if_pos h1] at h ⊢
            rw [Bool.and_eq_true] at h1
            exact Or.inl ⟨h1.1, h1.2⟩
          · rw [if_neg h1] at h ⊢
            exact ih _ _ h
        · rw [if_neg hrc] at h ⊢
          exact ih _ _ h

theorem generateVeyonKeys_short_circuit (env : KeygenEnv) (fs : FS)
    (hp : pathExists fs privKeyP = true) (hq : pathExists fs pubKeyP = true) :
    generateVeyonKeys env fs = ⟨true, fs, 0⟩ := by
  have hd : pathExists fs keysDirP = true :=
    pathExists_ancestor (by decide) hp
  have hk : (pathExists fs privKeyP && pathExists fs pubKeyP) = true := by
    rw [hp, hq]; rfl
  unfold generateVeyonKeys
  rw [if_pos hd, if_pos hk]

theorem copyVeyonKeys_success_shape {env : CopyEnv} {fs fs' : FS} {root : Path}
    (h : copyVeyonKeys env fs root = (true, fs')) :
    fs' = copytree
      (if pathExists fs (root ++ ["keys"]) then rmtree fs (root ++ ["keys"]) else fs)
      keysDirP (root ++ ["keys"]) := by
  unfold copyVeyonKeys copyVeyonKeysCopyPhase at h
  repeat' split at h
  all_goals
    first
      | exact Bool.noConfusion (congrArg Prod.fst h)
      | (rw [if_pos (by assumption)]; exact (congrArg Prod.snd h).symm)
      | (rw [if_neg (by assumption)]; exact (congrArg Prod.snd h).symm)

theorem distributeKeysToVeyon_success_shape {env : DistEnv} {fs fs' : FS} {root : Path}
    (hperm : env.copyRaisesPerm = false)
    (h : distributeKeysToVeyon env fs root = (true, fs')) :
    fs' = copytree (if pathExists fs keysDirP then rmtree fs keysDirP else fs)
        (root ++ ["keys"]) keysDirP := by
  unfold distributeKeysToVeyon at h
  rw [hperm] at h
  repeat' split at h
  all_goals
    first
      | exact Bool.noConfusion (congrArg Prod.fst h)
      | exact absurd rfl (by assumption)
      | (rw [if_pos (by assumption)]; exact (congrArg Prod.snd h).symm)
      | (rw [if_neg (by assumption)]; exact (congrArg Prod.snd h).symm)

/-- C7 (amended): round-trip of the key material holds on the synchronous
copy path - when copy_veyon_keys stages the key directory on the teacher
machine, the student machine holds that exact staged tree below its root, and
distribute_keys_to_veyon succeeds through the direct shutil.copytree path (no
PermissionError, recorded as the copyRaisesPerm hypothesis), the public key
file at the vendor key directory is byte-identical to the staged source file.
The staging and vendor directories are distinct locations, which the isUnder
hypotheses record.  The elevated robocopy path gives no such guarantee: it
reports success on launch alone (see the C7 counterexample). -/
theorem C7_roundtrip (envT : CopyEnv) (fsT fsT' : FS) (rootT : Path)
    (envS : DistEnv) (fsS fsS' : FS) (rootS : Path)
    (hC : copyVeyonKeys envT fsT rootT = (true, fsT'))
    (hPub : (lookupFS fsT pubKeyP).isSome = true)
    (hTd1 : isUnder (rootT ++ ["keys"]) keysDirP = false)
    (hTd2 : isUnder keysDirP (rootT ++ ["keys"]) = false)
    (hEq : subtreeAt fsS (rootS ++ ["keys"]) = subtreeAt fsT' (rootT ++ ["keys"]))
    (hSd1 : isUnder (rootS ++ ["keys"]) keysDirP = false)
    (hSd2 : isUnder keysDirP (rootS ++ ["keys"]) = false)
    (hPerm : envS.copyRaisesPerm = false)
    (hD : distributeKeysToVeyon envS fsS rootS = (true, fsS')) :
    lookupFS fsS' pubKeyP =
      lookupFS fsT' ((rootT ++ ["keys"]) ++ ["public", "supervisor", "key"]) ∧
    (lookupFS fsS' pubKeyP).isSome = true := by
  have hshapeS := distributeKeysToVeyon_success_shape hPerm hD
  have hshapeT := copyVeyonKeys_success_shape hC
  have hniS : isUnder keysDirP
      ((rootS ++ ["keys"]) ++ ["public", "supervisor", "key"]) = false :=
    isUnder_extend_false hSd2 hSd1 _
  have hniT : isUnder (rootT ++ ["keys"])
      (keysDirP ++ ["public", "supervisor", "key"]) = false :=
    isUnder_extend_false hTd1 hTd2 _
  have hA : lookupFS fsS' pubKeyP =
      lookupFS fsS ((rootS ++ ["keys"]) ++ ["public", "supervisor", "key"]) := by
    rw [hshapeS]
    show lookupFS _ (keysDirP ++ ["public", "supervisor", "key"]) = _
    rw [lookupFS_copytree]
    by_cases hex : pathExists fsS keysDirP = true
    · rw [if_pos hex]
      exact lookupFS_rmtree_of_not_under hniS fsS
    · rw [if_neg hex]
  have hB : lookupFS fsS ((rootS ++ ["keys"]) ++ ["public", "supervisor", "key"]) =
      lookupFS fsT' ((rootT ++ ["keys"]) ++ ["public", "supervisor", "key"]) := by
    rw [← lookupFS_subtreeAt fsS (rootS ++ ["keys"]), hEq, lookupFS_subtreeAt]
  have hCfin : lookupFS fsT' ((rootT ++ ["keys"]) ++ ["public", "supervisor", "key"]) =
      lookupFS fsT pubKeyP := by
    rw [hshapeT, lookupFS_copytree]
    show lookupFS _ (keysDirP ++ ["public", "supervisor", "key"]) = _
    by_cases hex : pathExists fsT (rootT ++ ["keys"]) = true
    · rw [if_pos hex]
      exact lookupFS_rmtree_of_not_under hniT fsT
    · rw [if_neg hex]
      rfl
  refine ⟨hA.trans hB, ?_⟩
  rw [hA.trans hB, hCfin]
  exact hPub

theorem runInstallerTeacher_admin_ok {env : TeacherEnv} (hadm : env.isAdmin = true)
    (hexit : env.installerExit = 0) : runInstallerTeacher env = none := by
  unfold runInstallerTeacher
  rw [if_pos hadm, if_neg (fun hne => hne hexit)]

/-- C1: if a reference checksum was obtained and the computed SHA256 of the
downloaded file differs from it, install_teacher aborts with the integrity
error, and neither the installer spawn nor key generation nor the key copy is
ever reached. -/
theorem C1_checksum_mismatch_aborts (env : TeacherEnv) (a : Asset) (c : List Char)
    (hsel : selectWin64 env.release.assets = some a)
    (hcks : teacherChecksum env a = some c)
    (hmis : lowerL (env.hash env.installerBytes) ≠ c) :
    (installTeacher env).err = some TErr.integrityError ∧
    Event.installerSpawned ∉ (installTeacher env).events ∧
    Event.keygenStarted ∉ (installTeacher env).events ∧
    Event.copyStarted ∉ (installTeacher env).events := by
  have hne : env.release.assets.isEmpty = false := by
    cases hassets : env.release.assets with
    | nil => rw [hassets] at hsel; cases hsel
    | cons x xs => rfl
  cases hca : findChecksumAsset env.release.assets with
  | none =>
    simp only [installTeacher, hne, Bool.false_eq_true, ite_false, hsel, hca, hcks,
      if_neg hmis]
    decide
  | some ca =>
    simp only [installTeacher, hne, Bool.false_eq_true, ite_false, hsel, hca, hcks,
      if_neg hmis]
    decide

/-- Witness for C1 at a concrete environment: the published digest is 64 a
characters, the downloaded file hashes to 64 b characters, and the run aborts
with the integrity error before spawning anything. -/
theorem C1_witness :
    (installTeacher envC1).err = some TErr.integrityError ∧
    Event.installerSpawned ∉ (installTeacher envC1).events ∧
    Event.keygenStarted ∉ (installTeacher envC1).events ∧
    Event.copyStarted ∉ (installTeacher envC1).events :=
  C1_checksum_mismatch_aborts envC1 assetW hashA (by decide) (by decide) (by decide)

/-- C2 counterexample: with two arbitrarily named files below the key
directory and a CLI that reports the keys as already existing,
generate_veyon_keys returns success although neither the private nor the
public supervisor key file exists on disk, refuting the claim that a success
always implies both key files were confirmed present. -/
theorem C2_counterexample :
    (generateVeyonKeys envC2 fsC2).ok = true ∧
    pathExists (generateVeyonKeys envC2 fsC2).fs privKeyP = false ∧
    pathExists (generateVeyonKeys envC2 fsC2).fs pubKeyP = false := by
  decide

/-- C2 (amended): whenever generate_veyon_keys returns success, a filesystem
check in that run observed key material on disk at return time: both fixed
key files, or files with private and public in their paths, or - when the CLI
reported the keys as already existing - at least two files under the key
directory.  A CLI exit code alone is never the basis of success. -/
theorem C2_success_has_disk_evidence (env : KeygenEnv) (fs : FS)
    (h : (generateVeyonKeys env fs).ok = true) :
    keyEvidence (generateVeyonKeys env fs).fs := by
  unfold generateVeyonKeys at h ⊢
  by_cases hd : pathExists fs keysDirP = true
  · rw [if_pos hd] at h ⊢
    by_cases hk : (pathExists fs privKeyP && pathExists fs pubKeyP) = true
    · rw [if_pos hk] at h ⊢
      rw [Bool.and_eq_true] at hk
      exact Or.inl ⟨hk.1, hk.2⟩
    · rw [if_neg hk] at h ⊢
      by_cases hn : 0 < (filesUnder fs keysDirP).length
      · rw [if_pos hn] at h ⊢
        by_cases hsub : (hasKeyWithSub fs privChars && hasKeyWithSub fs pubChars) = true
        · rw [if_pos hsub] at h ⊢
          rw [Bool.and_eq_true] at hsub
          exact Or.inr (Or.inl ⟨hsub.1, hsub.2⟩)
        · rw [if_neg hsub] at h ⊢
          by_cases hcli : (cliPaths.any fun p => pathExists fs p) = true
          · rw [if_pos hcli] at h ⊢
            exact keygenLoop_evidence _ _ _ h
          · rw [if_neg hcli] at h
            cases h
      · rw [if_neg hn] at h ⊢
        by_cases hcli : (cliPaths.any fun p => pathExists fs p) = true
        · rw [if_pos hcli] at h ⊢
          exact keygenLoop_evidence _ _ _ h
        · rw [if_neg hcli] at h
          cases h
  · rw [if_neg hd] at h ⊢
    by_cases hcli : (cliPaths.any fun p => pathExists fs p) = true
    · rw [if_pos hcli] at h ⊢
      exact keygenLoop_evidence _ _ _ h
    · rw [if_neg hcli] at h
      cases h

/-- Witness for the amended C2 at the counterexample environment: the success
is backed by the two files counted under the key directory. -/
theorem C2_witness : keyEvidence (generateVeyonKeys envC2 fsC2).fs :=
  C2_success_has_disk_evidence envC2 fsC2 (by decide)

/-- C3 counterexample: an already-elevated teacher run whose installer exits
with code 1 raises (install_teacher.py line 599), refuting the claim that an
elevated run never treats a non-zero installer exit code as fatal. -/
theorem C3_counterexample :
    envC3.isAdmin = true ∧ envC3.installerExit ≠ 0 ∧
    (installTeacher envC3).err = some TErr.installerFailed := by
  refine ⟨rfl, by decide, ?_⟩
  decide

/-- C3 (amended): only the student installer treats the installer exit code
as non-fatal on an already-elevated run (the run completes and proceeds to
key distribution); the teacher installer's already-elevated branch raises on
any non-zero exit code. -/
theorem C3_nonzero_exit_split :
    (∀ (envS : StudentEnv) (a : Asset), envS.isAdmin = true →
      selectWin64Student envS.release.assets = some a →
      (installStudent envS).err = none ∧
      Event.distributeStarted ∈ (installStudent envS).events) ∧
    (∀ envT : TeacherEnv, envT.isAdmin = true → envT.installerExit ≠ 0 →
      runInstallerTeacher envT = some TErr.installerFailed) := by
  constructor
  · intro envS a hadm hsel
    have hrun : runInstallerStudent envS = none := by
      unfold runInstallerStudent
      rw [if_pos hadm]
    simp only [installStudent, hsel, hrun]
    exact ⟨trivial, by simp⟩
  · intro envT hadm hexit
    unfold runInstallerTeacher
    rw [if_pos hadm, if_pos hexit]

/-- Witness for the amended C3: a concrete elevated student run with installer
exit code 5 completes without error, and the concrete elevated teacher run
with exit code 1 fails. -/
theorem C3_witness :
    ((installStudent envS3).err = none ∧
      Event.distributeStarted ∈ (installStudent envS3).events) ∧
    runInstallerTeacher envC3 = some TErr.installerFailed :=
  ⟨C3_nonzero_exit_split.1 envS3 assetW (by decide) (by decide),
   C3_nonzero_exit_split.2 envC3 (by decide) (by decide)⟩

/-- C4 counterexample: in the elevation-requested path the uninstaller wait
is WaitForSingleObject with INFINITE (uninstall.py line 123), refuting the
claim that every wait on the uninstaller is bounded. -/
theorem C4_counterexample :
    ((runUninstallerElevated envC4).1.all (fun w => w.isSome)) = false := by
  decide

/-- C4 (amended): the already-elevated path of run_uninstaller_elevated only
waits with the bounded 120-second timeout, while the elevation-requested path
with a process handle performs exactly one unbounded wait. -/
theorem C4_wait_bounded_split :
    (∀ env : UninstEnv, env.isAdmin = true →
      ((runUninstallerElevated env).1.all (fun w => w.isSome)) = true) ∧
    (∀ env : UninstEnv, env.isAdmin = false → env.hasPyWin32 = true →
      env.shellExRaises = false → env.hProcessOk = true →
      (runUninstallerElevated env).1 = [none]) := by
  constructor
  · intro env h
    unfold runUninstallerElevated
    rw [if_pos h]
    by_cases hr : env.runRaises = true
    · rw [if_pos hr]; rfl
    · rw [if_neg hr]
      by_cases ht : env.timedOut = true
      · rw [if_pos ht]; rfl
      · rw [if_neg ht]; rfl
  · intro env h1 h2 h3 h4
    unfold runUninstallerElevated
    rw [if_neg (by intro hh; rw [h1] at hh; exact Bool.noConfusion hh), if_pos h2,
        if_neg (by intro hh; rw [h3] at hh; exact Bool.noConfusion hh), if_pos h4]

/-- Witness for the amended C4: an elevated run only performs bounded waits,
and the concrete elevation-requested run waits unbounded. -/
theorem C4_witness :
    ((runUninstallerElevated envC4w).1.all (fun w => w.isSome)) = true ∧
    (runUninstallerElevated envC4).1 = [none] :=
  ⟨C4_wait_bounded_split.1 envC4w (by decide),
   C4_wait_bounded_split.2 envC4 (by decide) (by decide) (by decide) (by decide)⟩

/-- C5 counterexample: even with no uninstaller and no data directory on the
machine, uninstall_veyon spawns the sc stop VeyonService process first,
refuting the claim that such a run spawns no external process. -/
theorem C5_counterexample :
    findVeyonUninstaller envC5.fs = none ∧
    pathExists envC5.fs veyonDataP = false ∧
    (uninstallVeyon envC5).2 = true ∧
    ((uninstallVeyon envC5).1.any isSpawnEvent) = true := by
  decide

/-- C5 (amended): an uninstall run on a machine with neither the vendor
uninstaller nor the vendor data directory returns success with no prompt and
no uninstaller or purge spawn; the only external process it spawns is the
service-stop command sc stop VeyonService. -/
theorem C5_no_vendor_success (env : UninstallEnv)
    (h1 : findVeyonUninstaller env.fs = none)
    (h2 : pathExists env.fs veyonDataP = false) :
    uninstallVeyon env = ([UEvent.scStopSpawn], true) := by
  simp only [uninstallVeyon, h1]
  rw [if_neg (by intro hh; rw [h2] at hh; exact Bool.noConfusion hh)]

/-- Witness for the amended C5 at the concrete empty machine. -/
theorem C5_witness : uninstallVeyon envC5 = ([UEvent.scStopSpawn], true) :=
  C5_no_vendor_success envC5 (by decide) (by decide)

/-- C7 counterexample: the elevated robocopy branch of distribute_keys_to_veyon
(install_student.py lines 158-167) reports success on the ShellExecuteW launch
alone, without waiting for the mirror or reading its exit code: on a key
directory staged by copy_veyon_keys and transferred unchanged, the distributor
returns success through that branch while the public key file is absent from
the vendor key directory, refuting the claimed round-trip on that success
path. -/
theorem C7_counterexample :
    copyVeyonKeys copyEnvNull fsKeys rootTW =
      (true, (copyVeyonKeys copyEnvNull fsKeys rootTW).2) ∧
    subtreeAt fsSW (rootSW ++ ["keys"]) =
      subtreeAt (copyVeyonKeys copyEnvNull fsKeys rootTW).2 (rootTW ++ ["keys"]) ∧
    (distributeKeysToVeyon distEnvRobo fsSW rootSW).1 = true ∧
    lookupFS (distributeKeysToVeyon distEnvRobo fsSW rootSW).2 pubKeyP = none ∧
    pathExists (distributeKeysToVeyon distEnvRobo fsSW rootSW).2 pubKeyP = false := by
  decide

/-- Witness for the amended C7 at a concrete pair of machines: stage a
two-file key directory on the teacher side, transfer it unchanged, distribute
it on the student side through the synchronous copy path, and the vendor-side
public key equals the staged one. -/
theorem C7_witness :
    lookupFS (distributeKeysToVeyon distEnvW fsSW rootSW).2 pubKeyP =
      lookupFS (copyVeyonKeys copyEnvNull fsKeys rootTW).2
        ((rootTW ++ ["keys"]) ++ ["public", "supervisor", "key"]) ∧
    (lookupFS (distributeKeysToVeyon distEnvW fsSW rootSW).2 pubKeyP).isSome = true :=
  C7_roundtrip copyEnvNull fsKeys (copyVeyonKeys copyEnvNull fsKeys rootTW).2 rootTW
    distEnvW fsSW (distributeKeysToVeyon distEnvW fsSW rootSW).2 rootSW
    (by decide) (by decide) (by decide) (by decide) (by decide) (by decide)
    (by decide) (by decide) (by decide)

/-- C8: on a machine that already holds both supervisor key files at their
fixed locations, generate_veyon_keys succeeds through the idempotent
short-circuit with zero CLI invocations and leaves the filesystem unchanged,
so a second invocation behaves identically to the first. -/
theorem C8_keygen_idempotent (env : KeygenEnv) (fs : FS)
    (hp : pathExists fs privKeyP = true) (hq : pathExists fs pubKeyP = true) :
    generateVeyonKeys env fs = ⟨true, fs, 0⟩ ∧
    generateVeyonKeys env (generateVeyonKeys env fs).fs = generateVeyonKeys env fs := by
  have h1 := generateVeyonKeys_short_circuit env fs hp hq
  refine ⟨h1, ?_⟩
  rw [h1]
  exact h1

/-- Witness for C8 at the concrete machine with both key files present. -/
theorem C8_witness :
    generateVeyonKeys kgEnvNull fsKeys = ⟨true, fsKeys, 0⟩ ∧
    generateVeyonKeys kgEnvNull (generateVeyonKeys kgEnvNull fsKeys).fs =
      generateVeyonKeys kgEnvNull fsKeys :=
  C8_keygen_idempotent kgEnvNull fsKeys (by decide) (by decide)

/-- C9 counterexample: an empty asset list vacuously contains no win64 entry,
yet install_teacher fails with the distinct no-assets error raised at
install_teacher.py line 421, not with the asset-not-found error of line 430. -/
theorem C9_counterexample :
    envC9T.release.assets = [] ∧
    (installTeacher envC9T).err = some TErr.noAssets ∧
    (installTeacher envC9T).err ≠ some TErr.assetNotFound := by
  decide

/-- C9 (amended): on a nonempty asset list with no win64 match, both fetchers
fail with the asset-not-found error and perform no download; on an empty
asset list the teacher fetcher fails with its distinct no-assets error, also
before any download, and the student fetcher still fails with its selection
error. -/
theorem C9_no_match_no_download :
    (∀ envT : TeacherEnv, envT.release.assets ≠ [] →
      (∀ a ∈ envT.release.assets, containsSub win64Chars (lowerL a.name) = false ∧
        containsSub win64Chars (lowerL a.url) = false) →
      installTeacher envT = ⟨[], some TErr.assetNotFound⟩) ∧
    (∀ envT : TeacherEnv, envT.release.assets = [] →
      installTeacher envT = ⟨[], some TErr.noAssets⟩) ∧
    (∀ envS : StudentEnv,
      (∀ a ∈ envS.release.assets, containsSub win64Chars (lowerL a.name) = false) →
      installStudent envS = ⟨[], some SErr.assetNotFound, false, envS.fs⟩) := by
  refine ⟨?_, ?_, ?_⟩
  · intro envT hn hall
    have hsel : selectWin64 envT.release.assets = none := by
      apply List.find?_eq_none.mpr
      intro a ha
      rw [(hall a ha).1, (hall a ha).2]
      decide
    have hne : envT.release.assets.isEmpty = false := by
      cases hassets : envT.release.assets with
      | nil => exact absurd hassets hn
      | cons x xs => rfl
    simp only [installTeacher, hne, Bool.false_eq_true, ite_false, hsel]
  · intro envT he
    have hemp : envT.release.assets.isEmpty = true := by rw [he]; rfl
    simp only [installTeacher, hemp, ite_true]
  · intro envS hall
    have hsel : selectWin64Student envS.release.assets = none := by
      apply List.find?_eq_none.mpr
      intro a ha
      rw [hall a ha]
      decide
    simp only [installStudent, hsel]

/-- Witness for the amended C9 at three concrete environments: a nonempty
non-matching list, the empty list, and the student side. -/
theorem C9_witness :
    installTeacher envC9b = ⟨[], some TErr.assetNotFound⟩ ∧
    installTeacher envC9T = ⟨[], some TErr.noAssets⟩ ∧
    installStudent envC9S = ⟨[], some SErr.assetNotFound, false, envC9S.fs⟩ :=
  ⟨C9_no_match_no_download.1 envC9b (by decide) (by decide),
   C9_no_match_no_download.2.1 envC9T (by decide),
   C9_no_match_no_download.2.2 envC9S (by decide)⟩

/-- C10: a text none of whose lines contains a 64-hex token parses to none,
and a teacher run that resolves no checksum does not fail verification: with
a benign elevated environment it downloads, logs the hash, and installs
without raising - silent degradation to unverified mode. -/
theorem C10_unparseable_checksum_degrades :
    (∀ text fn : List Char,
      (∀ l ∈ splitLines text, searchHex64 none l = none) →
      find_checksum_in_text text fn = none) ∧
    (∀ (env : TeacherEnv) (a : Asset),
      selectWin64 env.release.assets = some a →
      teacherChecksum env a = none →
      env.isWin32 = true → env.isAdmin = true → env.installerExit = 0 →
      (generateVeyonKeys env.kgEnv env.fs).ok = true →
      (copyVeyonKeys env.copyEnv (generateVeyonKeys env.kgEnv env.fs).fs env.root).1
        = true →
      (installTeacher env).err = none ∧
      Event.downloadedInstaller ∈ (installTeacher env).events ∧
      Event.installerSpawned ∈ (installTeacher env).events) := by
  constructor
  · intro text fn hall
    unfold find_checksum_in_text
    rw [findChecksumGo_eq]
    have h1 : (splitLines text).filter
        (fun l => (searchHex64 none l).isSome && containsSub fn l) = [] := by
      apply List.filter_eq_nil_iff.mpr
      intro l hl
      rw [hall l hl]
      simp
    have h2 : (splitLines text).filter (fun l => (searchHex64 none l).isSome) = [] := by
      apply List.filter_eq_nil_iff.mpr
      intro l hl
      rw [hall l hl]
      simp
    rw [h1, h2]
    rfl
  · intro env a hsel hcks hwin hadm hexit hkg hcp
    have hne : env.release.assets.isEmpty = false := by
      cases hassets : env.release.assets with
      | nil => rw [hassets] at hsel; cases hsel
      | cons x xs => rfl
    have hrun : runInstallerTeacher env = none := runInstallerTeacher_admin_ok hadm hexit
    cases hca : findChecksumAsset env.release.assets with
    | none =>
      simp only [installTeacher, hne, Bool.false_eq_true, ite_false, hsel, hca, hcks,
        hwin, ite_true, hrun, hkg, hcp]
      decide
    | some ca =>
      simp only [installTeacher, hne, Bool.false_eq_true, ite_false, hsel, hca, hcks,
        hwin, ite_true, hrun, hkg, hcp]
      decide

/-- Witness for C10: a hashless text parses to none, and the concrete
checksum-less teacher run completes with the download and install performed. -/
theorem C10_witness :
    find_checksum_in_text ('n' :: 'o' :: ' ' :: 'h' :: 'a' :: 's' :: 'h' :: [])
        assetW.name = none ∧
    ((installTeacher envC10).err = none ∧
      Event.downloadedInstaller ∈ (installTeacher envC10).events ∧
      Event.installerSpawned ∈ (installTeacher envC10).events) :=
  ⟨C10_unparseable_checksum_degrades.1 _ _ (by decide),
   C10_unparseable_checksum_degrades.2 envC10 assetW (by decide) (by decide) rfl rfl rfl
     (by decide) (by decide)⟩

end Veyon
